import Mathlib

/-!
Verification development for the COMSYS link-layer protocol engine
(`linklayer.c`, `checksum.c`).

Shallow embedding conventions:
* `byte_t` values are `Nat` with explicit `% 256` wherever the C code
  truncates an `int` expression into a `byte_t` variable.
* Byte buffers (`byte_t *`) are `List Nat`; a read `buf[i]` is
  `buf.getD i 0` and a contiguous copy loop is a `drop`/`take` slice.
* The physical layer is abstracted: `PHY_send` always delivers its bytes,
  and `PHY_get` consumes from a finite list of pending input bytes,
  returning fewer bytes than requested exactly when the list runs dry
  (which also models the expiry of the receive time limit).
* The `static` connection state of `linklayer.c` is an explicit
  `LLState` record threaded through the operations.
-/

-- ===== Constants from linklayer.h and checksum.h =====

def MAX_BLK : Nat := 200
def MOD_SEQNUM : Nat := 16
def STARTBYTE : Nat := 212
def SEQNUMPOS : Nat := 2
def FRAMENUMBERPOS : Nat := 1
def HEADERSIZE : Nat := 3
def TRAILERSIZE : Nat := 1
def FRAMEGOOD : Nat := 1
def FRAMEBAD : Nat := 0
def POSACK : Nat := 1
def NEGACK : Nat := 26
def ACK_SIZE : Nat := 5
def MAX_TRIES : Nat := 5
def MODULO : Nat := 250

def SUCCESS : Int := 0
def BADUSE : Int := -9
def FAILURE : Int := -12
def GIVEUP : Int := -15

-- ===== Checksum unit (checksum.c) =====

/-- One step of the C accumulation `checksum += b` where `checksum` is a
`byte_t`: the sum is truncated back into one byte. -/
def byteAdd (a b : Nat) : Nat := (a + b) % 256

/-- Model of `makeCHKSUM(dataTX, nDataTX, frameSize, seqnum)` from checksum.c:
starts a `byte_t` accumulator at `frameSize + seqnum` (truncated to a
byte), adds the first `nDataTX` data bytes into it (each addition
truncated to a byte), and returns the accumulator `% MODULO`. -/
def makeCHKSUM (dataTX : List Nat) (nDataTX : Nat) (frameSize seqnum : Nat) : Nat :=
  ((dataTX.take nDataTX).foldl byteAdd ((frameSize + seqnum) % 256)) % MODULO

/-- Model of `inspectCHKSUM(frameRX, sizeFrame)` from checksum.c: re-computes a
`byte_t` sum over the bytes at indices `1 .. sizeFrame - TRAILERSIZE - 1`
(the loop `for (c = 1; c < sizeFrame - TRAILERSIZE; c++)`, modelled as the
slice of length `sizeFrame - 2` starting at index 1) and compares it,
`% MODULO`, with the byte at index `sizeFrame - TRAILERSIZE`.
The C code performs no lower bound check on `sizeFrame`; for
`sizeFrame = 0` it would read index `-1`, so the theorems below only use
`sizeFrame ≥ 1`, where the Lean natural-subtraction indices agree with
the C `int` indices. -/
def inspectCHKSUM (frameRX : List Nat) (sizeFrame : Nat) : Nat :=
  let checksum := ((frameRX.drop 1).take (sizeFrame - 2)).foldl byteAdd 0
  if frameRX.getD (sizeFrame - TRAILERSIZE) 0 ≠ checksum % MODULO then FRAMEBAD
  else FRAMEGOOD

-- ===== Frame codec (linklayer.c) =====

/-- Model of `next(seq)` from linklayer.c. -/
def nextSeq (seq : Nat) : Nat := (seq + 1) % MOD_SEQNUM

/-- Model of `buildDataFrame(frameTX, dataTX, nDataTX, seqNumTX)` from linklayer.c,
returning the constructed frame bytes.  `framesize` is the `byte_t`
variable `(byte_t)nDataTX + 2`; the copy loop writes the first `nDataTX`
data bytes after the header, and the checksum byte ends the frame.
(The C function returns `HEADERSIZE + nDataTX + TRAILERSIZE`, which is
the length of this list when `nDataTX ≤ dataTX.length`.) -/
def buildDataFrame (dataTX : List Nat) (nDataTX : Nat) (seqNumTX : Nat) : List Nat :=
  let framesize := (nDataTX % 256 + 2) % 256
  [STARTBYTE, framesize, seqNumTX % 256]
    ++ dataTX.take nDataTX
    ++ [makeCHKSUM dataTX nDataTX framesize (seqNumTX % 256)]

/-- The value returned by the C `buildDataFrame`. -/
def buildDataFrameSize (nDataTX : Nat) : Nat := HEADERSIZE + nDataTX + TRAILERSIZE

/-- Model of `checkFrame(frameRX, sizeFrame)` from linklayer.c.  The C function
initialises `frameStatus = FRAMEGOOD`, sets `frameStatus = FRAMEBAD` when
the first byte is not `STARTBYTE`, and then assigns
`frameStatus = inspectCHKSUM(frameRX, sizeFrame)`, discarding the result
of the marker test; the shadowed `let`s mirror that assignment sequence. -/
def checkFrame (frameRX : List Nat) (sizeFrame : Nat) : Nat :=
  let frameStatus := FRAMEGOOD
  let frameStatus := if frameRX.getD 0 0 ≠ STARTBYTE then FRAMEBAD else frameStatus
  let frameStatus := inspectCHKSUM frameRX sizeFrame
  frameStatus

/-- Model of `processFrame(frameRX, sizeFrame, dataRX, maxData, &seqNumRX)` from
linklayer.c: extracts the sequence number from `SEQNUMPOS`, computes
`nRXdata = sizeFrame - HEADERSIZE - TRAILERSIZE` (an `int`, so modelled
in `Int`), clips it to `maxData`, and copies that many bytes from the
middle of the frame.  Returns `(nRXdata, data copied, seqNumRX)`. -/
def processFrame (frameRX : List Nat) (sizeFrame : Nat) (maxData : Nat) :
    Int × List Nat × Nat :=
  let seqNumRX := frameRX.getD SEQNUMPOS 0
  let nRXdata : Int := (sizeFrame : Int) - (HEADERSIZE : Int) - (TRAILERSIZE : Int)
  let nRXdata := if nRXdata > (maxData : Int) then (maxData : Int) else nRXdata
  (nRXdata, (frameRX.drop HEADERSIZE).take nRXdata.toNat, seqNumRX)

-- ===== Frame location (getFrame, linklayer.c) =====

/-- Result of `getFrame`: the return value (`0` for the timeout / size-limit
outcomes, otherwise the number of bytes in the frame), the bytes assembled
in the caller's frame buffer (indices `0, 1, ...`), and the list of buffer
indices written, in order, as evidence of where the function stores
received bytes. -/
structure GFResult where
  ret : Nat
  frame : List Nat
  writes : List Nat
deriving Repr, DecidableEq

/-- The scan loop at the top of `getFrame`: read one byte at a time into
`frameRX[0]` until the byte is `STARTBYTE` or the input runs dry (which
models the time limit expiring).  Returns the number of bytes consumed
(marker included) and the input remaining after the marker. -/
def findMarker : List Nat → Option (Nat × List Nat)
  | [] => none
  | b :: bs =>
    if b = STARTBYTE then some (1, bs)
    else
      match findMarker bs with
      | none => none
      | some (n, r) => some (n + 1, r)

/-- Model of `getFrame(frameRX, maxSize, timeLimit)` from linklayer.c, on a finite
list of pending input bytes.  After the marker is found, one size byte is
read, then `PHY_get` is asked for `framesize` further bytes and returns
however many are pending (fewer on timeout).  The size-limit test
`bytesRX >= maxSize` is performed only after those bytes have been stored.
When the input ends right after the marker, the size byte is never
received (`PHY_get` returns 0 bytes both times) and `bytesRX` stays 1,
exactly as in the C code. -/
def getFrame (input : List Nat) (maxSize : Nat) : GFResult :=
  match findMarker input with
  | none => ⟨0, [], List.replicate input.length 0⟩
  | some (scanned, rest) =>
    match rest with
    | [] =>
      if 1 ≥ maxSize then ⟨0, [STARTBYTE], List.replicate scanned 0⟩
      else ⟨1, [STARTBYTE], List.replicate scanned 0⟩
    | szb :: rest2 =>
      let framesize := szb
      let got2 := min framesize rest2.length
      let bytesRX := 2 + got2
      let ws := List.replicate scanned 0 ++ [1] ++ List.range' 2 got2
      if bytesRX ≥ maxSize then ⟨0, STARTBYTE :: szb :: rest2.take got2, ws⟩
      else ⟨bytesRX, STARTBYTE :: szb :: rest2.take got2, ws⟩

-- ===== Connection state (static variables of linklayer.c) =====

/-- The `static` variables of linklayer.c that make up the connection
state: sequence numbers, connection flag and the report counters. -/
structure LLState where
  seqNumTX : Nat
  lastSeqRX : Nat
  connected : Bool
  framesSent : Nat
  acksSent : Nat
  naksSent : Nat
  acksRX : Nat
  naksRX : Nat
  badFrames : Nat
  goodFrames : Nat
  timeouts : Nat
deriving Repr, DecidableEq

/-- The connection state established by a successful `LL_connect`:
`seqNumTX = 0`, `lastSeqRX = 2 * MOD_SEQNUM - 1` (a sentinel that
increments to 0), all counters reset. -/
def initialLLState : LLState :=
  { seqNumTX := 0
    lastSeqRX := 2 * MOD_SEQNUM - 1
    connected := true
    framesSent := 0
    acksSent := 0
    naksSent := 0
    acksRX := 0
    naksRX := 0
    badFrames := 0
    goodFrames := 0
    timeouts := 0 }

-- ===== Acknowledgements (sendAck, linklayer.c) =====

/-- The five ack-frame bytes constructed by `sendAck(type, seqNum)`:
marker, size field `ACK_SIZE - 1`, the sequence number being acknowledged,
a status byte (`FRAMEGOOD` for `POSACK`, `FRAMEBAD` otherwise — the C
`switch` default), and a checksum over the single status byte with
`frameSize = ACK_SIZE - 1`. -/
def ackFrameBytes (type seqNum : Nat) : List Nat :=
  let status := if type = POSACK then FRAMEGOOD else FRAMEBAD
  [STARTBYTE, ACK_SIZE - 1, seqNum % 256, status,
    makeCHKSUM [status] 1 (ACK_SIZE - 1) (seqNum % 256)]

/-- Model of `sendAck(type, seqNum)` from linklayer.c: builds the ack frame,
transmits it (the transport delivers it in this model) and updates the
ack/nak counters.  Returns the updated state and the frame bytes put on
the wire. -/
def sendAck (type seqNum : Nat) (st : LLState) : LLState × List Nat :=
  let st' :=
    if type = POSACK then { st with acksSent := st.acksSent + 1 }
    else if type = NEGACK then { st with naksSent := st.naksSent + 1 }
    else st
  (st', ackFrameBytes type seqNum)

-- ===== Send operations (linklayer.c) =====

/-- Model of `LL_send_basic(dataTX, nTXdata)` from linklayer.c with
`nTXdata = dataTX.length`: connection check, block-size check against
`MAX_BLK`, build the frame, send it (delivered in this model), bump the
frame counter and advance the sequence number. -/
def LL_send_basic (st : LLState) (dataTX : List Nat) : Int × LLState :=
  if st.connected = false then (BADUSE, st)
  else if dataTX.length > MAX_BLK then (BADUSE, st)
  else
    let _frameTX := buildDataFrame dataTX dataTX.length st.seqNumTX
    (SUCCESS,
      { st with
          framesSent := st.framesSent + 1
          seqNumTX := nextSeq st.seqNumTX })

/-- The send-and-wait do/while loop of `LL_send_LLC`.  `fuel` counts the
attempts remaining (`MAX_TRIES - attempts`); each iteration transmits the
frame (bumping `framesSent`), waits for a response with
`getFrame(frameAck, 2 * ACK_SIZE, 2 * TX_WAIT)` on the next pending
response byte-stream, and classifies it exactly as the C code does.
Returns the success flag and the state after the loop. -/
def sendLLCloop (seqTX : Nat) : Nat → LLState → List (List Nat) → Bool × LLState
  | 0, st, _ => (false, st)
  | fuel + 1, st, responses =>
    let st1 := { st with framesSent := st.framesSent + 1 }
    let g := getFrame (responses.headD []) (2 * ACK_SIZE)
    if g.ret = 0 then
      sendLLCloop seqTX fuel { st1 with timeouts := st1.timeouts + 1 } responses.tail
    else if checkFrame g.frame g.ret = FRAMEGOOD then
      let st2 := { st1 with goodFrames := st1.goodFrames + 1 }
      let seqAck := g.frame.getD SEQNUMPOS 0
      if g.frame.getD (SEQNUMPOS + 1) 0 = POSACK ∧ seqAck = seqTX then
        (true, { st2 with acksRX := st2.acksRX + 1 })
      else
        sendLLCloop seqTX fuel { st2 with naksRX := st2.naksRX + 1 } responses.tail
    else
      sendLLCloop seqTX fuel { st1 with badFrames := st1.badFrames + 1 } responses.tail

/-- Model of `LL_send_LLC(dataTX, nTXdata)` from linklayer.c with
`nTXdata = dataTX.length`.  `responses` supplies, per attempt, the bytes
pending on the wire when the sender waits for its ack (an exhausted or
absent stream is a timeout).  On success the sequence number advances;
after `MAX_TRIES` fruitless attempts it returns `GIVEUP` with the
sequence number unchanged. -/
def LL_send_LLC (st : LLState) (dataTX : List Nat) (responses : List (List Nat)) :
    Int × LLState :=
  if st.connected = false then (BADUSE, st)
  else if dataTX.length > MAX_BLK then (BADUSE, st)
  else
    let _frameTX := buildDataFrame dataTX dataTX.length st.seqNumTX
    let r := sendLLCloop st.seqNumTX MAX_TRIES st responses
    if r.1 then (SUCCESS, { r.2 with seqNumTX := nextSeq st.seqNumTX })
    else (GIVEUP, r.2)

-- ===== Receive operation (LL_receive_LLC, linklayer.c) =====

/-- Result of `LL_receive_LLC`: return value, the caller's data buffer
after the call, the connection state, and the log of acknowledgements
sent, as `(type, seqNum)` pairs in order. -/
structure RecvOut where
  ret : Int
  data : List Nat
  st : LLState
  acks : List (Nat × Nat)
deriving Repr, DecidableEq

/-- The receive do/while loop of `LL_receive_LLC`.  `seqVar` is the local
`seqNumRX` variable (initially 0, updated by `processFrame` on each good
frame — a NAK for a bad frame echoes its current value, which may be
stale, exactly as in the C code).  `buf` is the caller's `dataRX` buffer;
`processFrame` overwrites its prefix.  Acknowledgements both update the
counters (via `sendAck`) and are appended to the `acks` log. -/
def recvLLCloop (expected maxData : Nat) :
    Nat → LLState → List (List Nat) → Nat → List Nat → List (Nat × Nat) → RecvOut
  | 0, st, _, _, buf, acks => ⟨GIVEUP, buf, st, acks⟩
  | fuel + 1, st, responses, seqVar, buf, acks =>
    let g := getFrame (responses.headD []) (3 * MAX_BLK)
    if g.ret = 0 then
      recvLLCloop expected maxData fuel { st with timeouts := st.timeouts + 1 }
        responses.tail seqVar buf acks
    else if checkFrame g.frame g.ret = FRAMEBAD then
      let st1 := { st with badFrames := st.badFrames + 1 }
      let sa := sendAck NEGACK seqVar st1
      recvLLCloop expected maxData fuel sa.1 responses.tail seqVar buf
        (acks ++ [(NEGACK, seqVar)])
    else
      let st1 := { st with goodFrames := st.goodFrames + 1 }
      let pr := processFrame g.frame g.ret maxData
      let buf1 := pr.2.1 ++ buf.drop pr.2.1.length
      if pr.2.2 = expected then
        let st2 := { st1 with lastSeqRX := pr.2.2 }
        let sa := sendAck POSACK pr.2.2 st2
        ⟨pr.1, buf1, sa.1, acks ++ [(POSACK, pr.2.2)]⟩
      else if pr.2.2 = st.lastSeqRX then
        let sa := sendAck NEGACK pr.2.2 st1
        recvLLCloop expected maxData fuel sa.1 responses.tail pr.2.2 buf1
          (acks ++ [(NEGACK, pr.2.2)])
      else
        let sa := sendAck NEGACK pr.2.2 st1
        recvLLCloop expected maxData fuel sa.1 responses.tail pr.2.2 buf1
          (acks ++ [(NEGACK, pr.2.2)])

/-- Model of `LL_receive_LLC(dataRX, maxData)` from linklayer.c.  `dataRX0` is the
caller's buffer before the call; `responses` supplies, per attempt, the
bytes pending when the receiver waits for a frame.  `expected` is
computed once, as `next(lastSeqRX)`. -/
def LL_receive_LLC (st : LLState) (maxData : Nat) (dataRX0 : List Nat)
    (responses : List (List Nat)) : RecvOut :=
  if st.connected = false then ⟨BADUSE, dataRX0, st, []⟩
  else recvLLCloop (nextSeq st.lastSeqRX) maxData MAX_TRIES st responses 0 dataRX0 []

-- ===== Helper lemmas =====

/-- The byte-wise accumulation of `checksum.c` computes the plain sum
modulo 256. -/
theorem foldl_byteAdd (l : List Nat) :
    ∀ init : Nat, l.foldl byteAdd (init % 256) = (init + l.sum) % 256 := by
  induction l with
  | nil => intro init; simp
  | cons b t ih =>
    intro init
    have h1 : byteAdd (init % 256) b = (init + b) % 256 := by
      simp [byteAdd, Nat.add_mod]
    simp only [List.foldl_cons, h1]
    have := ih (init + b)
    simp only [this, List.sum_cons]
    ring_nf

/-- Taking an exact-length prefix of an append gives it back. -/
theorem take_append_exact (l r : List Nat) : (l ++ r).take l.length = l := by
  induction l with
  | nil => simp
  | cons a t ih => simp [ih]

/-- Reading at the first index past an exact-length prefix. -/
theorem getD_append_exact (l : List Nat) (x : Nat) (r : List Nat) :
    (l ++ x :: r).getD l.length 0 = x := by
  induction l with
  | nil => simp
  | cons a t ih => simpa using ih

/-- Evaluation of `inspectCHKSUM` on a frame of shape
`marker :: size :: seq :: payload ++ [checksum]` at its exact length. -/
theorem inspectCHKSUM_eval (a b c : Nat) (p : List Nat) :
    inspectCHKSUM ([STARTBYTE, a, b] ++ p ++ [c]) (p.length + 4) =
      if c ≠ ((a + b + p.sum) % 256) % MODULO then FRAMEBAD else FRAMEGOOD := by
  have h1 : p.length + 4 - 2 = ([a, b] ++ p).length := by simp
  have h2 : p.length + 4 - TRAILERSIZE = ([STARTBYTE, a, b] ++ p).length := by
    simp [TRAILERSIZE]
  have hdrop : ([STARTBYTE, a, b] ++ p ++ [c]).drop 1 = ([a, b] ++ p) ++ [c] := by simp
  have hassoc : [STARTBYTE, a, b] ++ p ++ [c] = ([STARTBYTE, a, b] ++ p) ++ [c] := by simp
  have hfold : ([a, b] ++ p).foldl byteAdd 0 = (a + b + p.sum) % 256 := by
    have hb : byteAdd (byteAdd 0 a) b = ((a + b) % 256) := by
      simp [byteAdd, Nat.add_mod]
    have := foldl_byteAdd p (a + b)
    simp only [List.foldl_cons, List.cons_append, List.nil_append] at *
    rw [hb, this]
  unfold inspectCHKSUM
  rw [h1, hdrop, take_append_exact, hfold]
  rw [hassoc, h2]
  rw [show (([STARTBYTE, a, b] ++ p) ++ [c]) = ([STARTBYTE, a, b] ++ p) ++ c :: [] from rfl]
  rw [getD_append_exact]

/-- Round trip: a frame built by `buildDataFrame` passes `checkFrame`
at the size that `buildDataFrame` reports. -/
theorem checkFrame_buildDataFrame (p : List Nat) (s : Nat) :
    checkFrame (buildDataFrame p p.length s) (buildDataFrameSize p.length) = FRAMEGOOD := by
  have hsz : buildDataFrameSize p.length = p.length + 4 := by
    simp [buildDataFrameSize, HEADERSIZE, TRAILERSIZE]
    omega
  have hck : checkFrame (buildDataFrame p p.length s) (buildDataFrameSize p.length) =
      inspectCHKSUM (buildDataFrame p p.length s) (buildDataFrameSize p.length) := rfl
  rw [hck, hsz]
  have hframe : buildDataFrame p p.length s =
      [STARTBYTE, (p.length % 256 + 2) % 256, s % 256] ++ p ++
        [((((p.length % 256 + 2) % 256 + s % 256) + p.sum) % 256) % MODULO] := by
    unfold buildDataFrame makeCHKSUM
    simp only [List.take_length]
    rw [foldl_byteAdd p ((p.length % 256 + 2) % 256 + s % 256)]
  rw [hframe, inspectCHKSUM_eval]
  simp

/-- C2: for every payload of length 0..253 and sequence number 0..15,
building a data frame with `buildDataFrame` and checking it with
`checkFrame` (whose checksum verification is `inspectCHKSUM`) yields
`FRAMEGOOD`. -/
theorem buildDataFrame_checkFrame_roundtrip (p : List Nat) (s : Nat)
    (hp : p.length ≤ 253) (hs : s ≤ 15) :
    checkFrame (buildDataFrame p p.length s) (buildDataFrameSize p.length) = FRAMEGOOD :=
  checkFrame_buildDataFrame p s

theorem buildDataFrame_checkFrame_roundtrip_witness :
    List.length [1, 2, 3] ≤ 253 ∧ (0 : Nat) ≤ 15 ∧
      checkFrame (buildDataFrame [1, 2, 3] (List.length [1, 2, 3]) 0)
        (buildDataFrameSize (List.length [1, 2, 3])) = FRAMEGOOD :=
  ⟨by decide, by decide,
    buildDataFrame_checkFrame_roundtrip [1, 2, 3] 0 (by decide) (by decide)⟩

/-- C6 counterexample: `makeCHKSUM` wraps its accumulator to one byte
(mod 256) before the final `% 250`, so it differs from the exact-integer
`(frameSize + seqNum + sum payload) % 250`: at payload `[255]`,
`frameSize = 4`, `seqNum = 0` it returns 3, not 9. -/
theorem makeCHKSUM_mod250_counterexample :
    makeCHKSUM [255] 1 4 0 = 3 ∧ (4 + 0 + List.sum [255]) % 250 = 9 ∧
      makeCHKSUM [255] 1 4 0 ≠ (4 + 0 + List.sum [255]) % 250 := by decide

/-- C6 amended: `makeCHKSUM(payload, n, frameSize, seqNum)` (with `n` the
payload length) equals the exact-integer sum reduced mod 256 (the
`byte_t` accumulator) and then mod 250. -/
theorem makeCHKSUM_closed_form (p : List Nat) (fs sq : Nat) :
    makeCHKSUM p p.length fs sq = ((fs + sq + p.sum) % 256) % MODULO := by
  unfold makeCHKSUM
  simp only [List.take_length]
  rw [foldl_byteAdd p (fs + sq)]

/-- C7: `checkFrame` computes the marker test but then overwrites its
result with `inspectCHKSUM`'s, so a frame whose first byte is not
`STARTBYTE` but whose trailing checksum is consistent is reported
`FRAMEGOOD` — contradicting the function's own "Frame bad - no start
marker" diagnostic and the well-formedness rule. -/
theorem checkFrame_missing_marker_accepted :
    (0 : Nat) ≠ STARTBYTE ∧ checkFrame [0, 4, 0, 1, 5] 5 = FRAMEGOOD ∧
      FRAMEGOOD ≠ FRAMEBAD := by decide

/-- C9 counterexample: `inspectCHKSUM` has no defensive lower bound check
on `sizeFrame`: at `sizeFrame = 1` on the one-byte frame `[0]` it returns
`FRAMEGOOD`, not `FRAMEBAD`. -/
theorem inspectCHKSUM_small_frame_counterexample :
    inspectCHKSUM [0] 1 = FRAMEGOOD ∧ FRAMEGOOD ≠ FRAMEBAD := by decide

/-- C9 amended: at `sizeFrame = 1` (too small for a frame to contain both
a header and a checksum byte) the checksum loop adds no bytes and
`inspectCHKSUM` merely compares the byte at index 0 with 0, returning
`FRAMEGOOD` whenever that byte is 0 — there is no defensive bound check. -/
theorem inspectCHKSUM_no_bound_check (b : Nat) (rest : List Nat) :
    inspectCHKSUM (b :: rest) 1 = if b ≠ 0 then FRAMEBAD else FRAMEGOOD := by
  unfold inspectCHKSUM
  rfl

/-- C10 counterexample: fed the byte stream `STARTBYTE, 20, <20 bytes>`
with `maxSize = 10`, `getFrame` stores received bytes at indices up to 21
(≥ `maxSize`) before performing its size-limit test, and only then
returns 0. -/
theorem getFrame_write_beyond_maxSize_counterexample :
    21 ∈ (getFrame ([STARTBYTE, 20] ++ List.replicate 20 7) 10).writes ∧
      (getFrame ([STARTBYTE, 20] ++ List.replicate 20 7) 10).ret = 0 := by decide

/-- C10 amended: the size-limit half of the claim holds — whenever the
accumulated length reaches `maxSize` before a complete frame is
assembled, `getFrame` returns 0 (never an error), so its return value is
always 0 or below `maxSize` — but received bytes can be stored at indices
at or beyond `maxSize` first, as the counterexample shows. -/
theorem getFrame_size_limit_returns_zero (input : List Nat) (maxSize : Nat) :
    (getFrame input maxSize).ret = 0 ∨ (getFrame input maxSize).ret < maxSize := by
  rcases hm : findMarker input with _ | ⟨scanned, rest⟩
  · simp [getFrame, hm]
  · rcases rest with _ | ⟨szb, rest2⟩
    · by_cases h1 : 1 ≥ maxSize <;> simp [getFrame, hm, h1] <;> omega
    · by_cases h2 : 2 + min szb rest2.length ≥ maxSize <;>
        simp [getFrame, hm, h2] <;> omega

/-- C5 counterexample: the acknowledgement frame built by `sendAck` is 5
bytes with a single status byte as payload, so the claimed invariant
requires its size field to be `2 + 1 = 3`; the code stores
`ACK_SIZE - 1 = 4` there instead. -/
theorem sendAck_sizeField_counterexample :
    (sendAck POSACK 0 initialLLState).2.length = ACK_SIZE ∧
      (sendAck POSACK 0 initialLLState).2.getD FRAMENUMBERPOS 0 = 4 ∧
      (4 : Nat) ≠ 2 + 1 := by decide

/-- C5 amended: data frames built by `buildDataFrame` (payload length at
most 253, before the 8-bit size field overflows) carry
`size = 2 + payload length`, but the 5-byte ack frames built by `sendAck`
carry `size = ACK_SIZE - 1 = 4`, one more than `2 + 1`. -/
theorem frame_sizeField_amended (p : List Nat) (s : Nat) (hp : p.length ≤ 253)
    (t q : Nat) (st : LLState) :
    (buildDataFrame p p.length s).getD FRAMENUMBERPOS 0 = 2 + p.length ∧
      (sendAck t q st).2.getD FRAMENUMBERPOS 0 = ACK_SIZE - 1 := by
  constructor
  · have h1 : p.length % 256 = p.length := Nat.mod_eq_of_lt (by omega)
    have h2 : (p.length + 2) % 256 = p.length + 2 := Nat.mod_eq_of_lt (by omega)
    unfold buildDataFrame
    simp [FRAMENUMBERPOS, h1, h2]
    omega
  · rfl

theorem frame_sizeField_amended_witness :
    List.length [9] ≤ 253 ∧
      ((buildDataFrame [9] (List.length [9]) 0).getD FRAMENUMBERPOS 0 =
          2 + List.length [9] ∧
        (sendAck POSACK 0 initialLLState).2.getD FRAMENUMBERPOS 0 = ACK_SIZE - 1) :=
  ⟨by decide, frame_sizeField_amended [9] 0 (by decide) POSACK 0 initialLLState⟩

set_option maxRecDepth 4000 in
/-- C8 counterexample: a connected engine rejects a 253-byte payload with
`BADUSE`, contradicting the claim that every payload of length at most
253 is accepted — the code's bound is `MAX_BLK = 200`. -/
theorem payload253_rejected_counterexample :
    initialLLState.connected = true ∧
      (List.replicate 253 1).length ≤ 253 ∧
      (LL_send_basic initialLLState (List.replicate 253 1)).1 = BADUSE := by decide

/-- C8 amended: when connected, `LL_send_basic` and `LL_send_LLC` are
rejected by the size check with `BADUSE` exactly when the payload exceeds
`MAX_BLK = 200` bytes (not 253). -/
theorem send_size_check_amended (st : LLState) (p : List Nat)
    (rs : List (List Nat)) (hc : st.connected = true) :
    ((LL_send_basic st p).1 = BADUSE ↔ p.length > MAX_BLK) ∧
      ((LL_send_LLC st p rs).1 = BADUSE ↔ p.length > MAX_BLK) := by
  constructor
  · unfold LL_send_basic
    by_cases h : p.length > MAX_BLK <;> simp [hc, h, BADUSE, SUCCESS]
  · unfold LL_send_LLC
    by_cases h : p.length > MAX_BLK
    · simp [hc, h, BADUSE]
    · simp only [hc, h]
      rcases hr : (sendLLCloop st.seqNumTX MAX_TRIES st rs).1 <;>
        simp [hr, BADUSE, SUCCESS, GIVEUP]

theorem send_size_check_amended_witness :
    initialLLState.connected = true ∧
      (((LL_send_basic initialLLState [1]).1 = BADUSE ↔
          List.length [1] > MAX_BLK) ∧
        ((LL_send_LLC initialLLState [1] []).1 = BADUSE ↔
          List.length [1] > MAX_BLK)) :=
  ⟨by decide, send_size_check_amended initialLLState [1] [] (by decide)⟩

/-- The first loop iteration of `LL_send_LLC` on the exact positive ack
for sequence number 0 succeeds immediately. -/
theorem sendLLCloop_posack (st : LLState) :
    sendLLCloop 0 MAX_TRIES st [ackFrameBytes POSACK 0] =
      (true,
        { st with
            framesSent := st.framesSent + 1
            goodFrames := st.goodFrames + 1
            acksRX := st.acksRX + 1 }) := rfl

/-- C1: a connected engine with transmit sequence number 0, whose pending
response bytes are exactly the ack frame produced by
`sendAck(POSACK, 0)`, accepts that response on the first attempt: one
frame transmission, result `SUCCESS`, and `seqNumTX` becomes 1. -/
theorem LL_send_LLC_clean_exchange (st : LLState) (p : List Nat)
    (hc : st.connected = true) (hs : st.seqNumTX = 0) (hp : p.length ≤ MAX_BLK) :
    (LL_send_LLC st p [ackFrameBytes POSACK 0]).1 = SUCCESS ∧
      (LL_send_LLC st p [ackFrameBytes POSACK 0]).2.seqNumTX = 1 ∧
      (LL_send_LLC st p [ackFrameBytes POSACK 0]).2.framesSent = st.framesSent + 1 := by
  have hnp : ¬ (p.length > MAX_BLK) := by omega
  unfold LL_send_LLC
  rw [hs]
  simp [hc, hnp, sendLLCloop_posack, nextSeq, MOD_SEQNUM, SUCCESS]

theorem LL_send_LLC_clean_exchange_witness :
    initialLLState.connected = true ∧ initialLLState.seqNumTX = 0 ∧
      List.length [1, 2, 3] ≤ MAX_BLK ∧
      ((LL_send_LLC initialLLState [1, 2, 3] [ackFrameBytes POSACK 0]).1 = SUCCESS ∧
        (LL_send_LLC initialLLState [1, 2, 3] [ackFrameBytes POSACK 0]).2.seqNumTX = 1 ∧
        (LL_send_LLC initialLLState [1, 2, 3]
            [ackFrameBytes POSACK 0]).2.framesSent = initialLLState.framesSent + 1) :=
  ⟨by decide, by decide, by decide,
    LL_send_LLC_clean_exchange initialLLState [1, 2, 3] (by decide) (by decide) (by decide)⟩

/-- When every pending response stream makes `getFrame` time out, every
iteration of the send loop re-transmits and counts a timeout: after `k`
attempts the loop reports failure with `framesSent` and `timeouts` each
advanced by `k`. -/
theorem sendLLCloop_all_timeouts (seqTX : Nat) :
    ∀ (k : Nat) (st : LLState) (rs : List (List Nat)),
      (∀ r ∈ rs, (getFrame r (2 * ACK_SIZE)).ret = 0) →
      sendLLCloop seqTX k st rs =
        (false,
          { st with
              framesSent := st.framesSent + k
              timeouts := st.timeouts + k }) := by
  intro k
  induction k with
  | zero => intro st rs _; simp [sendLLCloop]
  | succ k ih =>
    intro st rs h
    obtain ⟨a1, a2, a3, a4, a5, a6, a7, a8, a9, a10, a11⟩ := st
    rcases rs with _ | ⟨r, rest⟩
    · simp only [sendLLCloop, List.headD_nil, List.tail_nil]
      rw [if_pos (show (getFrame [] (2 * ACK_SIZE)).ret = 0 from rfl)]
      rw [ih _ [] (fun r hr => absurd hr (List.not_mem_nil r))]
      simp only [Prod.mk.injEq, LLState.mk.injEq, true_and, and_true]
      omega
    · have h0 : (getFrame r (2 * ACK_SIZE)).ret = 0 := h r (List.mem_cons_self r rest)
      simp only [sendLLCloop, List.headD_cons, List.tail_cons]
      rw [if_pos h0]
      rw [ih _ rest (fun x hx => h x (List.mem_cons_of_mem r hx))]
      simp only [Prod.mk.injEq, LLState.mk.injEq, true_and, and_true]
      omega

/-- C3: a connected engine whose every wait for a response times out
(every `getFrame` call returns 0) transmits the frame exactly
`MAX_TRIES = 5` times, counts 5 timeouts, returns `GIVEUP`, and leaves
the transmit sequence number unchanged. -/
theorem LL_send_LLC_retry_bound (st : LLState) (p : List Nat)
    (rs : List (List Nat)) (hc : st.connected = true) (hp : p.length ≤ MAX_BLK)
    (hto : ∀ r ∈ rs, (getFrame r (2 * ACK_SIZE)).ret = 0) :
    (LL_send_LLC st p rs).1 = GIVEUP ∧
      (LL_send_LLC st p rs).2.seqNumTX = st.seqNumTX ∧
      (LL_send_LLC st p rs).2.framesSent = st.framesSent + MAX_TRIES ∧
      (LL_send_LLC st p rs).2.timeouts = st.timeouts + MAX_TRIES := by
  have hnp : ¬ (p.length > MAX_BLK) := by omega
  unfold LL_send_LLC
  rw [sendLLCloop_all_timeouts st.seqNumTX MAX_TRIES st rs hto]
  simp [hc, hnp]

theorem LL_send_LLC_retry_bound_witness :
    initialLLState.connected = true ∧ List.length [1, 2, 3] ≤ MAX_BLK ∧
      ((LL_send_LLC initialLLState [1, 2, 3] []).1 = GIVEUP ∧
        (LL_send_LLC initialLLState [1, 2, 3] []).2.seqNumTX = initialLLState.seqNumTX ∧
        (LL_send_LLC initialLLState [1, 2, 3] []).2.framesSent =
          initialLLState.framesSent + MAX_TRIES ∧
        (LL_send_LLC initialLLState [1, 2, 3] []).2.timeouts =
          initialLLState.timeouts + MAX_TRIES) :=
  ⟨by decide, by decide,
    LL_send_LLC_retry_bound initialLLState [1, 2, 3] [] (by decide) (by decide)
      (fun r hr => absurd hr (List.not_mem_nil r))⟩

/-- Behaviour of `getFrame` on a pending stream holding exactly one complete frame
whose size byte faithfully counts the bytes that follow it. -/
theorem getFrame_exact (szb : Nat) (body : List Nat) (maxSize : Nat)
    (hlen : body.length = szb) (hmax : 2 + szb < maxSize) :
    getFrame (STARTBYTE :: szb :: body) maxSize =
      ⟨2 + szb, STARTBYTE :: szb :: body, [0, 1] ++ List.range' 2 szb⟩ := by
  have hfm : findMarker (STARTBYTE :: szb :: body) = some (1, szb :: body) := by
    unfold findMarker
    simp
  unfold getFrame
  rw [hfm]
  have hmin : min szb body.length = szb := by omega
  simp only [hmin]
  rw [if_neg (show ¬ (2 + szb ≥ maxSize) by omega)]
  rw [← hlen, List.take_length]
  rfl

/-- Behaviour of `processFrame` on a frame of shape `marker, size, seq, payload,
checksum` with the payload within the caller's limit. -/
theorem processFrame_dataFrame (p : List Nat) (s : Nat) (maxData : Nat)
    (chk fsz : Nat) (hs : s < 256) (hm : p.length ≤ maxData) :
    processFrame ([STARTBYTE, fsz, s % 256] ++ p ++ [chk]) (p.length + 4) maxData =
      ((p.length : Int), p, s) := by
  have hseq : s % 256 = s := Nat.mod_eq_of_lt hs
  have hn : ((p.length + 4 : Nat) : Int) - (HEADERSIZE : Int) - (TRAILERSIZE : Int) =
      (p.length : Int) := by
    simp [HEADERSIZE, TRAILERSIZE]
    omega
  have hnot : ¬ ((p.length : Int) > (maxData : Int)) := by
    exact_mod_cast Nat.not_lt.mpr hm
  have hdrop : (([STARTBYTE, fsz, s % 256] ++ p ++ [chk]).drop HEADERSIZE) = p ++ [chk] := by
    simp [HEADERSIZE]
  unfold processFrame
  rw [hn]
  simp only [hnot, if_false, ite_false, Prod.mk.injEq]
  refine ⟨trivial, ?_, by simp [SEQNUMPOS, hseq]⟩
  rw [hdrop, Int.toNat_natCast, take_append_exact]

/-- With no pending responses every receive attempt times out; `k`
remaining attempts add `k` timeouts and end in `GIVEUP`. -/
theorem recvLLCloop_all_timeouts (expected maxData : Nat) (k : Nat) :
    ∀ (st : LLState) (seqVar : Nat) (buf : List Nat) (acks : List (Nat × Nat)),
      recvLLCloop expected maxData k st [] seqVar buf acks =
        ⟨GIVEUP, buf, { st with timeouts := st.timeouts + k }, acks⟩ := by
  induction k with
  | zero => intro st seqVar buf acks; simp [recvLLCloop]
  | succ k ih =>
    intro st seqVar buf acks
    obtain ⟨a1, a2, a3, a4, a5, a6, a7, a8, a9, a10, a11⟩ := st
    simp only [recvLLCloop, List.headD_nil, List.tail_nil]
    rw [if_pos (show (getFrame [] (3 * MAX_BLK)).ret = 0 from rfl)]
    rw [ih]
    simp only [RecvOut.mk.injEq, LLState.mk.injEq, true_and, and_true]
    omega

/-- The size reported by `buildDataFrame` is payload length + 4. -/
theorem buildDataFrameSize_eq (n : Nat) : buildDataFrameSize n = n + 4 := by
  simp [buildDataFrameSize, HEADERSIZE, TRAILERSIZE]
  omega

/-- A connected receiver whose last accepted sequence number is the
post-connect sentinel, offered exactly one pending frame
`buildDataFrame(p, |p|, 0)`: the frame is located, verified, accepted as
the expected block 0, positively acknowledged, and its payload is
written to the front of the caller's buffer and returned. -/
theorem recvLLC_accept (st : LLState) (p : List Nat) (maxData : Nat) (buf0 : List Nat)
    (hc : st.connected = true) (hl : st.lastSeqRX = 2 * MOD_SEQNUM - 1)
    (hp : p.length ≤ MAX_BLK) (hm : p.length ≤ maxData) :
    LL_receive_LLC st maxData buf0 [buildDataFrame p p.length 0] =
      ⟨(p.length : Int), p ++ buf0.drop p.length,
        { st with
            lastSeqRX := 0
            goodFrames := st.goodFrames + 1
            acksSent := st.acksSent + 1 },
        [(POSACK, 0)]⟩ := by
  have hp' : p.length ≤ 200 := by simpa [MAX_BLK] using hp
  have hn256 : p.length % 256 = p.length := Nat.mod_eq_of_lt (by omega)
  have hfsz : (p.length % 256 + 2) % 256 = p.length + 2 := by
    rw [hn256]; exact Nat.mod_eq_of_lt (by omega)
  have hF : buildDataFrame p p.length 0 =
      STARTBYTE :: (p.length + 2) ::
        ((0 % 256) :: (p ++ [makeCHKSUM p p.length (p.length + 2) (0 % 256)])) := by
    simp only [buildDataFrame, List.take_length, hfsz]
    rfl
  have hbody :
      ((0 % 256) :: (p ++ [makeCHKSUM p p.length (p.length + 2) (0 % 256)])).length =
        p.length + 2 := by simp
  have hgf : getFrame (buildDataFrame p p.length 0) (3 * MAX_BLK) =
      ⟨2 + (p.length + 2), buildDataFrame p p.length 0,
        [0, 1] ++ List.range' 2 (p.length + 2)⟩ := by
    rw [hF]
    exact getFrame_exact _ _ _ hbody (by simp [MAX_BLK]; omega)
  have h24 : 2 + (p.length + 2) = p.length + 4 := by omega
  have hcf : checkFrame (buildDataFrame p p.length 0) (2 + (p.length + 2)) = FRAMEGOOD := by
    rw [h24, ← buildDataFrameSize_eq p.length]
    exact checkFrame_buildDataFrame p 0
  have hpf : processFrame (buildDataFrame p p.length 0) (2 + (p.length + 2)) maxData =
      ((p.length : Int), p, 0) := by
    rw [h24, hF]
    exact processFrame_dataFrame p 0 maxData _ _ (by omega) hm
  have hexp : nextSeq (2 * MOD_SEQNUM - 1) = 0 := by decide
  unfold LL_receive_LLC
  rw [if_neg (by simp [hc])]
  rw [hl, hexp]
  rw [show MAX_TRIES = 4 + 1 from rfl]
  rw [recvLLCloop]
  simp only [List.headD_cons, List.tail_cons]
  rw [hgf]
  simp only []
  rw [if_neg (show ¬ (2 + (p.length + 2) = 0) by omega)]
  rw [hcf]
  rw [if_neg (show ¬ (FRAMEGOOD = FRAMEBAD) by decide)]
  rw [hpf]
  simp [sendAck, POSACK]

/-- A connected receiver whose last accepted sequence number is 0,
offered the same frame `buildDataFrame(p, |p|, 0)` again: the frame is
good but its sequence number equals `lastSeqRX`, so it is treated as a
duplicate — a negative acknowledgement is sent, the payload is not
returned, and after the remaining attempts time out the call gives up. -/
theorem recvLLC_duplicate (st : LLState) (p : List Nat) (maxData : Nat) (buf0 : List Nat)
    (hc : st.connected = true) (hl : st.lastSeqRX = 0)
    (hp : p.length ≤ MAX_BLK) (hm : p.length ≤ maxData) :
    LL_receive_LLC st maxData buf0 [buildDataFrame p p.length 0] =
      ⟨GIVEUP, p ++ buf0.drop p.length,
        { st with
            naksSent := st.naksSent + 1
            goodFrames := st.goodFrames + 1
            timeouts := st.timeouts + 4 },
        [(NEGACK, 0)]⟩ := by
  have hp' : p.length ≤ 200 := by simpa [MAX_BLK] using hp
  have hn256 : p.length % 256 = p.length := Nat.mod_eq_of_lt (by omega)
  have hfsz : (p.length % 256 + 2) % 256 = p.length + 2 := by
    rw [hn256]; exact Nat.mod_eq_of_lt (by omega)
  have hF : buildDataFrame p p.length 0 =
      STARTBYTE :: (p.length + 2) ::
        ((0 % 256) :: (p ++ [makeCHKSUM p p.length (p.length + 2) (0 % 256)])) := by
    simp only [buildDataFrame, List.take_length, hfsz]
    rfl
  have hbody :
      ((0 % 256) :: (p ++ [makeCHKSUM p p.length (p.length + 2) (0 % 256)])).length =
        p.length + 2 := by simp
  have hgf : getFrame (buildDataFrame p p.length 0) (3 * MAX_BLK) =
      ⟨2 + (p.length + 2), buildDataFrame p p.length 0,
        [0, 1] ++ List.range' 2 (p.length + 2)⟩ := by
    rw [hF]
    exact getFrame_exact _ _ _ hbody (by simp [MAX_BLK]; omega)
  have h24 : 2 + (p.length + 2) = p.length + 4 := by omega
  have hcf : checkFrame (buildDataFrame p p.length 0) (2 + (p.length + 2)) = FRAMEGOOD := by
    rw [h24, ← buildDataFrameSize_eq p.length]
    exact checkFrame_buildDataFrame p 0
  have hpf : processFrame (buildDataFrame p p.length 0) (2 + (p.length + 2)) maxData =
      ((p.length : Int), p, 0) := by
    rw [h24, hF]
    exact processFrame_dataFrame p 0 maxData _ _ (by omega) hm
  have hexp : nextSeq 0 = 1 := by decide
  unfold LL_receive_LLC
  rw [if_neg (by simp [hc])]
  rw [hl, hexp]
  rw [show MAX_TRIES = 4 + 1 from rfl]
  rw [recvLLCloop]
  simp only [List.headD_cons, List.tail_cons]
  rw [hgf]
  simp only []
  rw [if_neg (show ¬ (2 + (p.length + 2) = 0) by omega)]
  rw [hcf]
  rw [if_neg (show ¬ (FRAMEGOOD = FRAMEBAD) by decide)]
  rw [hpf]
  simp only []
  rw [if_neg (show ¬ ((0 : Nat) = 1) by decide)]
  rw [if_pos hl.symm]
  rw [recvLLCloop_all_timeouts]
  simp [sendAck, NEGACK, POSACK]
  exact hl

/-- C4: duplicate suppression.  A freshly connected receiver that is
handed the well-formed frame `buildDataFrame(p, |p|, 0)` delivers its
payload and acknowledges positively; handed the very same frame again in
a second `LL_receive_LLC` call, it treats it as a duplicate of the last
accepted block (`seq == lastSeqRX`), sends a negative acknowledgement and
retries instead of returning the payload, so the payload is delivered to
the caller exactly once. -/
theorem LL_receive_LLC_duplicate_suppression (st : LLState) (p : List Nat)
    (maxData : Nat) (buf0 buf1 : List Nat)
    (hc : st.connected = true) (hl : st.lastSeqRX = 2 * MOD_SEQNUM - 1)
    (hp : p.length ≤ MAX_BLK) (hm : p.length ≤ maxData) :
    (LL_receive_LLC st maxData buf0 [buildDataFrame p p.length 0]).ret =
        (p.length : Int) ∧
      (LL_receive_LLC st maxData buf0
          [buildDataFrame p p.length 0]).data.take p.length = p ∧
      (LL_receive_LLC st maxData buf0 [buildDataFrame p p.length 0]).acks =
        [(POSACK, 0)] ∧
      (LL_receive_LLC
          (LL_receive_LLC st maxData buf0 [buildDataFrame p p.length 0]).st
          maxData buf1 [buildDataFrame p p.length 0]).ret = GIVEUP ∧
      (LL_receive_LLC
          (LL_receive_LLC st maxData buf0 [buildDataFrame p p.length 0]).st
          maxData buf1 [buildDataFrame p p.length 0]).acks = [(NEGACK, 0)] := by
  have h1 := recvLLC_accept st p maxData buf0 hc hl hp hm
  have hst1c :
      (LL_receive_LLC st maxData buf0 [buildDataFrame p p.length 0]).st.connected =
        true := by rw [h1]; exact hc
  have hst1l :
      (LL_receive_LLC st maxData buf0 [buildDataFrame p p.length 0]).st.lastSeqRX =
        0 := by rw [h1]
  have h2 := recvLLC_duplicate _ p maxData buf1 hst1c hst1l hp hm
  exact ⟨by rw [h1], by rw [h1]; exact take_append_exact p _, by rw [h1],
    by rw [h2], by rw [h2]⟩

theorem LL_receive_LLC_duplicate_suppression_witness :
    initialLLState.connected = true ∧
      initialLLState.lastSeqRX = 2 * MOD_SEQNUM - 1 ∧
      List.length [7, 8] ≤ MAX_BLK ∧ List.length [7, 8] ≤ 200 ∧
      ((LL_receive_LLC initialLLState 200 []
            [buildDataFrame [7, 8] (List.length [7, 8]) 0]).ret =
          (List.length [7, 8] : Int) ∧
        (LL_receive_LLC initialLLState 200 []
            [buildDataFrame [7, 8] (List.length [7, 8]) 0]).data.take
            (List.length [7, 8]) = [7, 8] ∧
        (LL_receive_LLC initialLLState 200 []
            [buildDataFrame [7, 8] (List.length [7, 8]) 0]).acks = [(POSACK, 0)] ∧
        (LL_receive_LLC
            (LL_receive_LLC initialLLState 200 []
                [buildDataFrame [7, 8] (List.length [7, 8]) 0]).st
            200 [] [buildDataFrame [7, 8] (List.length [7, 8]) 0]).ret = GIVEUP ∧
        (LL_receive_LLC
            (LL_receive_LLC initialLLState 200 []
                [buildDataFrame [7, 8] (List.length [7, 8]) 0]).st
            200 [] [buildDataFrame [7, 8] (List.length [7, 8]) 0]).acks =
          [(NEGACK, 0)]) :=
  ⟨by decide, by decide, by decide, by decide,
    LL_receive_LLC_duplicate_suppression initialLLState [7, 8] 200 [] []
      (by decide) (by decide) (by decide) (by decide)⟩
